import Mathlib

/-!
Verification of the aiseller repository: a shallow embedding of its Go
configuration loader, its Telegram webhook handler, its PostgreSQL schema
(`users`, `conversations`, `messages`, `leads`, `products`), and the
archival cleanup script, together with a Conversation Store modelled from
the specification for the parts of the core whose implementation is not in
the repository.  Timestamps are modelled as integers counting days, UUID
columns as natural numbers, nullable SQL columns as `Option`.
-/

/-! ## Configuration loader (config package, `LoadConfig`) -/

/-- The `Config` struct of the config package. -/
structure Config where
  env : String
  port : String
  postgresDSN : String
  redisAddr : String
  openAIKey : String
deriving DecidableEq, Repr

/-- The process environment as seen by `os.LookupEnv` (after
`godotenv.Load` has populated it): `none` means the variable is unset. -/
def Env : Type := String → Option String

/-- `getEnv` — returns the variable value or the default. -/
def getEnv (e : Env) (key defaultVal : String) : String :=
  match e key with
  | some val => val
  | none => defaultVal

/-- `mustHave` — returns the variable value if set and non-empty;
`none` models `log.Fatalf` (the process terminates). -/
def mustHave (e : Env) (key : String) : Option String :=
  match e key with
  | some val => if val = "" then none else some val
  | none => none

/-- The `Config` value built inside the `once.Do` closure of `LoadConfig`;
`none` when a mandatory variable is missing and the process dies. -/
def buildConfig (e : Env) : Option Config :=
  match mustHave e "POSTGRES_DSN", mustHave e "REDIS_ADDR",
        mustHave e "OPENAI_KEY" with
  | some dsn, some redis, some key =>
      some { env := getEnv e "APP_ENV" "development"
             port := getEnv e "PORT" "8080"
             postgresDSN := dsn
             redisAddr := redis
             openAIKey := key }
  | _, _, _ => none

/-- `LoadConfig` with the package-level state made explicit: the state is
the package variable `cfg` guarded by `sync.Once` (`none` before the first
call).  Returns the result of the call and the new package state; a `none`
result models `log.Fatalf` on a missing mandatory variable. -/
def LoadConfig (e : Env) (st : Option Config) : Option Config × Option Config :=
  match st with
  | some c => (some c, some c)
  | none =>
      match buildConfig e with
      | some c => (some c, some c)
      | none => (none, none)

/-! ## Telegram webhook handler (`go-api/handlers/telegram.go`) -/

/-- `TelegramUpdate.Message.Chat` — the chat identifier. -/
structure TelegramChat where
  id : Int
deriving DecidableEq, Repr

/-- `TelegramUpdate.Message` — text plus chat. -/
structure TelegramMessage where
  text : String
  chat : TelegramChat
deriving DecidableEq, Repr

/-- `TelegramUpdate` — the minimal request structure from Telegram. -/
structure TelegramUpdate where
  message : TelegramMessage
deriving DecidableEq, Repr

/-- An HTTP response: status code written via `WriteHeader` (200 when the
handler only writes a body) and the accumulated body. -/
structure Response where
  status : Nat
  body : String
deriving DecidableEq, Repr

/-- `TelegramHandler`, with the JSON decoding of the request body
abstracted as its outcome: `Except.error` when the body does not decode as
a `TelegramUpdate`.  Returns the response together with the update that was
accepted for further processing (`none` when the request was rejected at
the boundary). -/
def TelegramHandler (method : String) (decoded : Except String TelegramUpdate) :
    Response × Option TelegramUpdate :=
  if method = "POST" then
    match decoded with
    | Except.error _ => ({ status := 400, body := "" }, none)
    | Except.ok update =>
        ({ status := 200,
           body := "Принято сообщение: " ++ update.message.text }, some update)
  else
    ({ status := 405, body := "Метод не поддерживается" }, none)

/-! ## Relational schema (`init.sql`) -/

/-- A row of the `users` table. -/
structure UserRow where
  id : Nat
  name : String
  email : Option String
  phone : Option String
  created_at : Int
  source : Option String
  tenant_id : Nat
deriving DecidableEq, Repr

/-- A row of the `conversations` table. -/
structure ConversationRow where
  id : Nat
  user_id : Nat
  started_at : Int
  ended_at : Option Int
  channel : Option String
  status : String
  tenant_id : Nat
deriving DecidableEq, Repr

/-- A row of the `messages` table. -/
structure MessageRow where
  id : Nat
  conversation_id : Nat
  sender : String
  content : Option String
  message_type : String
  timestamp : Int
  tenant_id : Nat
deriving DecidableEq, Repr

/-- A row of the `leads` table. -/
structure LeadRow where
  id : Nat
  user_id : Option Nat
  name : Option String
  email : Option String
  phone : Option String
  status : String
  source : Option String
  notes : Option String
  created_at : Int
  tenant_id : Nat
deriving DecidableEq, Repr

/-- A row of the `analytics` table.  The table is referenced by the
cleanup script but has no CREATE statement in the repository; only the
`timestamp` column the script uses is modelled. -/
structure AnalyticsRow where
  id : Nat
  timestamp : Int
deriving DecidableEq, Repr

/-- The database state: the primary tables of the schema together with the
archive tables created by the cleanup script. -/
structure DB where
  users : List UserRow
  conversations : List ConversationRow
  messages : List MessageRow
  leads : List LeadRow
  analytics : List AnalyticsRow
  archived_messages : List MessageRow
  archived_conversations : List ConversationRow
  archived_leads : List LeadRow
  archived_analytics : List AnalyticsRow
deriving DecidableEq, Repr

/-- Violation of the column constraint `email TEXT UNIQUE` on `users`:
two rows conflict when both emails are non-NULL and equal (SQL UNIQUE
ignores NULLs). -/
def emailGlobalConflict (u v : UserRow) : Bool :=
  match u.email, v.email with
  | some a, some b => a == b
  | _, _ => false

/-- Violation of `CONSTRAINT unique_email_per_tenant UNIQUE (tenant_id,
email)`: same tenant and equal non-NULL emails. -/
def emailTenantConflict (u v : UserRow) : Bool :=
  u.tenant_id == v.tenant_id && emailGlobalConflict u v

/-- Inserting a row into `users`: rejected (`none`) when it violates the
primary key, the global `UNIQUE` on `email`, or the tenant-scoped
`unique_email_per_tenant` constraint. -/
def insertUser (db : DB) (u : UserRow) : Option DB :=
  if db.users.any fun v =>
      v.id == u.id || emailGlobalConflict u v || emailTenantConflict u v then
    none
  else
    some { db with users := db.users ++ [u] }

/-- `DELETE FROM conversations WHERE id = cid`, with the
`fk_message_conversation ... ON DELETE CASCADE` action: the referencing
`messages` rows are deleted in the same statement. -/
def deleteConversation (db : DB) (cid : Nat) : DB :=
  { db with
    conversations := db.conversations.filter fun c => !(c.id == cid)
    messages := db.messages.filter fun m => !(m.conversation_id == cid) }

/-! ## Archival cleanup (`scripts/cleanup_with_archive.sql`) -/

/-- The WHERE clause of the messages archival: `timestamp < NOW() -
INTERVAL '90 days'` (time in days). -/
def msgExpired (now : Int) (m : MessageRow) : Bool :=
  m.timestamp < now - 90

/-- The WHERE clause of the conversations archival: `ended_at IS NOT NULL
AND ended_at < NOW() - INTERVAL '90 days'`. -/
def convExpired (now : Int) (c : ConversationRow) : Bool :=
  match c.ended_at with
  | some t => t < now - 90
  | none => false

/-- The WHERE clause of the leads archival: `created_at < NOW() - INTERVAL
'180 days' AND status IN ('rejected', 'unresponsive')`. -/
def leadExpired (now : Int) (l : LeadRow) : Bool :=
  l.created_at < now - 180 && (l.status == "rejected" || l.status == "unresponsive")

/-- The WHERE clause of the analytics archival: `timestamp < NOW() -
INTERVAL '180 days'`. -/
def analyticsExpired (now : Int) (a : AnalyticsRow) : Bool :=
  a.timestamp < now - 180

/-- The cleanup script run at time `now`: for each of `messages`,
`conversations`, `leads` and `analytics`, `INSERT INTO archived_* SELECT *
FROM t WHERE cond` followed by `DELETE FROM t WHERE cond`, with the same
condition and the same `NOW()` for the insert and the delete.  The
`DELETE FROM conversations` additionally fires the schema's
`fk_message_conversation ... ON DELETE CASCADE`: every message of a
deleted conversation is removed from the primary `messages` table as
well — the messages step has already run at that point, so such a message
is deleted even when it was too young to be archived. -/
def cleanup_with_archive (now : Int) (db : DB) : DB :=
  { db with
    archived_messages := db.archived_messages ++ db.messages.filter (msgExpired now)
    messages :=
      (db.messages.filter fun m => !msgExpired now m).filter fun m =>
        !((db.conversations.filter (convExpired now)).any fun c =>
            c.id == m.conversation_id)
    archived_conversations :=
      db.archived_conversations ++ db.conversations.filter (convExpired now)
    conversations := db.conversations.filter fun c => !convExpired now c
    archived_leads := db.archived_leads ++ db.leads.filter (leadExpired now)
    leads := db.leads.filter fun l => !leadExpired now l
    archived_analytics :=
      db.archived_analytics ++ db.analytics.filter (analyticsExpired now)
    analytics := db.analytics.filter fun a => !analyticsExpired now a }

/-! ## Conversation Store (modelled from the spec)

The Conversation Orchestration Engine of the spec (store contract of §4.1)
is not implemented in the repository; only its schema is.  The operations
below are modelled from the spec's words and every mutating operation is
one atomic step, reflecting the per-conversation serialization of §5. -/

/-- Modelled from the spec: a persisted Message of the Conversation Store
(§3) — sequence position monotonic per conversation, sender, content. -/
structure SMessage where
  seq : Nat
  sender : String
  content : String
deriving DecidableEq, Repr

/-- Modelled from the spec: a Conversation of the Conversation Store (§3)
— owning user, channel, status ∈ active / completed / abandoned. -/
structure SConversation where
  id : Nat
  userId : Nat
  channel : String
  status : String
deriving DecidableEq, Repr

/-- Modelled from the spec: the durable state of the Conversation Store
(§2, §4.1): conversations, the ordered message log (persistence order,
tagged with the owning conversation), lead field snapshots per
conversation, and the next fresh conversation identifier. -/
structure Store where
  convs : List SConversation
  msgs : List (Nat × SMessage)
  leadFields : List (Nat × (String × String))
  nextConvId : Nat
deriving DecidableEq, Repr

/-- The empty store, before any inbound message. -/
def initStore : Store :=
  { convs := [], msgs := [], leadFields := [], nextConvId := 0 }

/-- Whether a conversation is the active one of the (user, channel) pair. -/
def isActiveFor (u : Nat) (ch : String) (c : SConversation) : Bool :=
  c.status == "active" && c.userId == u && c.channel == ch

/-- The messages of one conversation, in persistence order. -/
def msgsOf (s : Store) (cid : Nat) : List SMessage :=
  (s.msgs.filter fun p => p.1 == cid).map Prod.snd

/-- Modelled from the spec: `getOrCreateActiveConversation(userIdentity,
channel) → Conversation` (§4.1) — a new inbound message on an existing
active conversation attaches to it; a conversation is created only when
the pair has no active one (§3). -/
def getOrCreateActiveConversation (s : Store) (u : Nat) (ch : String) :
    SConversation × Store :=
  match s.convs.find? (isActiveFor u ch) with
  | some c => (c, s)
  | none =>
      let c : SConversation :=
        { id := s.nextConvId, userId := u, channel := ch, status := "active" }
      (c, { s with convs := s.convs ++ [c], nextConvId := s.nextConvId + 1 })

/-- Modelled from the spec: `appendMessage(conversationId, Message) →
sequencePosition` (§4.1) — the message is appended to the conversation's
log at the next sequence position; nothing already persisted is edited. -/
def appendMessage (s : Store) (cid : Nat) (sender content : String) :
    Nat × Store :=
  let seq := (msgsOf s cid).length
  (seq, { s with msgs := s.msgs ++ [(cid, ⟨seq, sender, content⟩)] })

/-- Modelled from the spec: the terminal statuses a conversation is closed
with (§3: `completed` at the terminal funnel step, `abandoned` on
inactivity timeout). -/
inductive FinalStatus
  | completed
  | abandoned
deriving DecidableEq, Repr

/-- The status string of a terminal status. -/
def FinalStatus.toStatus : FinalStatus → String
  | .completed => "completed"
  | .abandoned => "abandoned"

/-- Modelled from the spec: `closeConversation(conversationId,
finalStatus)` (§4.1) — sets the conversation's status to the terminal
status. -/
def closeConversation (s : Store) (cid : Nat) (fs : FinalStatus) : Store :=
  { s with
    convs := s.convs.map fun c =>
      if c.id == cid then { c with status := fs.toStatus } else c }

/-- Modelled from the spec: `upsertLeadFields(conversationId,
partialFields) → Lead` (§4.1) — records captured lead fields for the
conversation. -/
def upsertLeadFields (s : Store) (cid : Nat)
    (fields : List (String × String)) : Store :=
  { s with leadFields := s.leadFields ++ fields.map fun f => (cid, f) }

/-- One serialized mutating operation of the Conversation Store: by §5 all
mutating operations on a conversation execute as a strictly serialized
sequence, so every concurrent inbound delivery order is some `List Op`. -/
inductive Op
  | getOrCreate (userId : Nat) (channel : String)
  | append (cid : Nat) (sender content : String)
  | close (cid : Nat) (fs : FinalStatus)
  | upsertLead (cid : Nat) (fields : List (String × String))
deriving Repr

/-- Applying one store operation. -/
def applyOp (s : Store) : Op → Store
  | .getOrCreate u ch => (getOrCreateActiveConversation s u ch).2
  | .append cid sender content => (appendMessage s cid sender content).2
  | .close cid fs => closeConversation s cid fs
  | .upsertLead cid fields => upsertLeadFields s cid fields

/-- The store reached from the empty store by a serialized sequence of
operations. -/
def run (ops : List Op) : Store :=
  ops.foldl applyOp initStore

/-- Two conversations conflict when both are active for the same
(user, channel) pair. -/
def convConflict (a b : SConversation) : Prop :=
  a.status = "active" ∧ b.status = "active" ∧ a.userId = b.userId ∧
    a.channel = b.channel

instance : DecidableRel convConflict := by
  intro a b
  unfold convConflict
  infer_instance

/-- At most one active conversation per (user, channel) pair. -/
def activeUnique (s : Store) : Prop :=
  s.convs.Pairwise fun a b => ¬ convConflict a b

/-- The per-conversation sequence positions are exactly 0, 1, …, n-1:
strictly increasing and gap-free. -/
def seqGapFree (s : Store) : Prop :=
  ∀ cid : Nat, (msgsOf s cid).map SMessage.seq = List.range (msgsOf s cid).length

lemma msgs_getOrCreate (s : Store) (u : Nat) (ch : String) :
    ((getOrCreateActiveConversation s u ch).2).msgs = s.msgs := by
  unfold getOrCreateActiveConversation
  cases s.convs.find? (isActiveFor u ch) <;> rfl

lemma msgsOf_congr {s s' : Store} (h : s.msgs = s'.msgs) (cid : Nat) :
    msgsOf s cid = msgsOf s' cid := by
  unfold msgsOf
  rw [h]

lemma msgsOf_appendMessage (s : Store) (cid cid' : Nat) (sender content : String) :
    msgsOf (appendMessage s cid sender content).2 cid' =
      if cid = cid' then
        msgsOf s cid' ++ [⟨(msgsOf s cid).length, sender, content⟩]
      else msgsOf s cid' := by
  unfold appendMessage msgsOf
  by_cases h : cid = cid' <;>
    simp [List.filter_append, h]

lemma seqGapFree_applyOp (s : Store) (op : Op) (h : seqGapFree s) :
    seqGapFree (applyOp s op) := by
  cases op with
  | getOrCreate u ch =>
      intro cid
      simp only [applyOp]
      rw [msgsOf_congr (msgs_getOrCreate s u ch) cid]
      exact h cid
  | append cid sender content =>
      intro cid'
      simp only [applyOp]
      rw [msgsOf_appendMessage]
      by_cases hc : cid = cid'
      · subst hc
        simp [List.range_succ, h cid]
      · simp [hc, h cid']
  | close cid fs =>
      intro cid'
      exact h cid'
  | upsertLead cid fields =>
      intro cid'
      exact h cid'

lemma seqGapFree_foldl (s : Store) (h : seqGapFree s) (ops : List Op) :
    seqGapFree (ops.foldl applyOp s) := by
  induction ops generalizing s with
  | nil => exact h
  | cons op ops ih => exact ih _ (seqGapFree_applyOp s op h)

lemma msgsOf_prefix_applyOp (s : Store) (op : Op) (cid : Nat) :
    msgsOf s cid <+: msgsOf (applyOp s op) cid := by
  cases op with
  | getOrCreate u ch =>
      simp only [applyOp]
      rw [msgsOf_congr (msgs_getOrCreate s u ch) cid]
  | append cid' sender content =>
      simp only [applyOp]
      rw [msgsOf_appendMessage]
      by_cases hc : cid' = cid
      · simp [hc]
      · simp [hc]
  | close cid' fs => exact List.prefix_refl _
  | upsertLead cid' fields => exact List.prefix_refl _

lemma isActiveFor_conflict {u : Nat} {ch : String} {a b : SConversation}
    (ha : isActiveFor u ch a = true) (hb : isActiveFor u ch b = true) :
    convConflict a b := by
  unfold isActiveFor at ha hb
  simp only [Bool.and_eq_true, beq_iff_eq] at ha hb
  exact ⟨ha.1.1, hb.1.1, ha.1.2.trans hb.1.2.symm, ha.2.trans hb.2.symm⟩

lemma activeUnique_applyOp (s : Store) (op : Op) (h : activeUnique s) :
    activeUnique (applyOp s op) := by
  cases op with
  | getOrCreate u ch =>
      show activeUnique (getOrCreateActiveConversation s u ch).2
      unfold getOrCreateActiveConversation
      cases hf : s.convs.find? (isActiveFor u ch) with
      | some c => exact h
      | none =>
          refine List.pairwise_append.2 ⟨h, List.pairwise_singleton _ _, ?_⟩
          intro a ha b hb hconf
          simp only [List.mem_singleton] at hb
          subst hb
          have hact : isActiveFor u ch a = true := by
            rcases hconf with ⟨h1, _, h3, h4⟩
            unfold isActiveFor
            simp [h1, h3, h4]
          exact absurd hact (by simpa using List.find?_eq_none.1 hf a ha)
  | append cid sender content => exact h
  | close cid fs =>
      show activeUnique (closeConversation s cid fs)
      unfold closeConversation activeUnique
      rw [List.pairwise_map]
      refine h.imp_of_mem ?_
      intro a b _ _ hnab hconf
      apply hnab
      have hstat : ∀ fs' : FinalStatus, FinalStatus.toStatus fs' ≠ "active" := by
        intro fs'
        cases fs' <;> simp [FinalStatus.toStatus]
      rcases hconf with ⟨h1, h2, h3, h4⟩
      by_cases hca : a.id == cid
      · simp only [hca, if_pos] at h1
        exact absurd h1 (hstat fs)
      · by_cases hcb : b.id == cid
        · simp only [hcb, if_pos] at h2
          exact absurd h2 (hstat fs)
        · simp only [hca, hcb, if_neg, Bool.false_eq_true, not_false_iff] at h1 h2 h3 h4
          exact ⟨h1, h2, h3, h4⟩
  | upsertLead cid fields => exact h

lemma activeUnique_foldl (s : Store) (h : activeUnique s) (ops : List Op) :
    activeUnique (ops.foldl applyOp s) := by
  induction ops generalizing s with
  | nil => exact h
  | cons op ops ih => exact ih _ (activeUnique_applyOp s op h)

lemma find_isActiveFor_unique (u : Nat) (ch : String) (l : List SConversation)
    (hp : l.Pairwise fun a b => ¬ convConflict a b) (c : SConversation)
    (hc : c ∈ l) (ha : isActiveFor u ch c = true) :
    l.find? (isActiveFor u ch) = some c := by
  induction l with
  | nil => cases hc
  | cons d t ih =>
      rcases List.pairwise_cons.1 hp with ⟨hd, ht⟩
      rcases List.mem_cons.1 hc with hcd | hct
      · subst hcd
        simp [List.find?_cons, ha]
      · have hdb : isActiveFor u ch d = false := by
          by_contra hne
          have hdt : isActiveFor u ch d = true := by
            cases hv : isActiveFor u ch d
            · exact absurd hv hne
            · rfl
          exact hd c hct (isActiveFor_conflict hdt ha)
        rw [List.find?_cons, hdb]
        exact ih ht hct

/-- C1: for every conversation of every store reachable by a serialized
sequence of operations (any concurrent inbound delivery order), the
sequence positions of its persisted messages are exactly 0, 1, …, n-1 —
strictly increasing with no gaps — and every operation only appends to a
conversation's message log (the old log is a prefix of the new one):
messages are never edited or reordered after persistence. -/
theorem messages_seq_gap_free_append_only (ops : List Op) :
    seqGapFree (run ops) ∧
      ∀ (op : Op) (cid : Nat),
        msgsOf (run ops) cid <+: msgsOf (applyOp (run ops) op) cid := by
  constructor
  · exact seqGapFree_foldl initStore (fun cid => rfl) ops
  · intro op cid
    exact msgsOf_prefix_applyOp (run ops) op cid

/-- C2: every store reachable by a serialized sequence of operations has
at most one active conversation per (user, channel) pair, and a new
inbound message for a pair that already has an active conversation
attaches to that conversation — `getOrCreateActiveConversation` returns it
and leaves the store unchanged, creating no duplicate. -/
theorem active_conversation_unique (ops : List Op) :
    activeUnique (run ops) ∧
      ∀ (u : Nat) (ch : String) (c : SConversation),
        c ∈ (run ops).convs → isActiveFor u ch c = true →
          getOrCreateActiveConversation (run ops) u ch = (c, run ops) := by
  have hau : activeUnique (run ops) :=
    activeUnique_foldl initStore List.Pairwise.nil ops
  refine ⟨hau, ?_⟩
  intro u ch c hc ha
  unfold getOrCreateActiveConversation
  rw [find_isActiveFor_unique u ch (run ops).convs hau c hc ha]

/-- Witness for C2 at a concrete reachable store: after one
`getOrCreate 5 "telegram"` the store holds one active conversation for the
pair, and a second lookup for the same pair attaches to it. -/
theorem active_conversation_unique_witness :
    activeUnique (run [Op.getOrCreate 5 "telegram"]) ∧
      getOrCreateActiveConversation (run [Op.getOrCreate 5 "telegram"]) 5 "telegram" =
        (⟨0, 5, "telegram", "active"⟩, run [Op.getOrCreate 5 "telegram"]) := by
  refine ⟨(active_conversation_unique [Op.getOrCreate 5 "telegram"]).1, ?_⟩
  exact (active_conversation_unique [Op.getOrCreate 5 "telegram"]).2 5 "telegram"
    ⟨0, 5, "telegram", "active"⟩ (by decide) (by decide)

/-- A user row in tenant 10 with email x@y. -/
def userTenant10 : UserRow :=
  { id := 1, name := "alice", email := some "x@y", phone := none,
    created_at := 0, source := none, tenant_id := 10 }

/-- A user row in a different tenant (20) with the same email x@y. -/
def userTenant20 : UserRow :=
  { id := 2, name := "bob", email := some "x@y", phone := none,
    created_at := 0, source := none, tenant_id := 20 }

/-- A database holding only the tenant-10 user. -/
def dbOneUser : DB :=
  { users := [userTenant10], conversations := [], messages := [], leads := [],
    analytics := [], archived_messages := [], archived_conversations := [],
    archived_leads := [], archived_analytics := [] }

/-- Counterexample to C3: two users in different tenants may NOT share the
same email.  The two rows have the same non-null email and different
tenants, the tenant-scoped `unique_email_per_tenant` constraint alone
would admit the second row, yet the insert is rejected, because the
`users` table also carries the global column constraint
`email TEXT UNIQUE`. -/
theorem user_email_not_tenant_scoped :
    userTenant10.email = userTenant20.email ∧
      userTenant10.email ≠ none ∧
      userTenant10.tenant_id ≠ userTenant20.tenant_id ∧
      emailTenantConflict userTenant20 userTenant10 = false ∧
      insertUser dbOneUser userTenant20 = none := by
  decide

/-- C3 amended: user email uniqueness is global, not tenant-scoped — the
schema declares `email TEXT UNIQUE` in addition to
`UNIQUE (tenant_id, email)`, so inserting a user whose non-null email
equals that of any existing user is rejected, whatever the tenants. -/
theorem user_email_globally_unique (db : DB) (u v : UserRow)
    (hv : v ∈ db.users) (h : emailGlobalConflict u v = true) :
    insertUser db u = none := by
  unfold insertUser
  rw [if_pos]
  rw [List.any_eq_true]
  exact ⟨v, hv, by simp [h]⟩

/-- Witness for the amended C3: the global rejection fires on the concrete
cross-tenant pair. -/
theorem user_email_globally_unique_witness :
    userTenant10 ∈ dbOneUser.users ∧
      emailGlobalConflict userTenant20 userTenant10 = true ∧
      insertUser dbOneUser userTenant20 = none :=
  ⟨by decide, by decide,
    user_email_globally_unique dbOneUser userTenant20 userTenant10
      (by decide) (by decide)⟩

/-- C4: deleting a conversation cascades to its messages — after
`deleteConversation db cid`, the conversation row is gone and no message
row referencing `cid` remains in the primary `messages` table. -/
theorem delete_conversation_cascades (db : DB) (cid : Nat) :
    (∀ c ∈ (deleteConversation db cid).conversations, c.id ≠ cid) ∧
      ∀ m ∈ (deleteConversation db cid).messages, m.conversation_id ≠ cid := by
  constructor
  · intro c hc
    rw [deleteConversation] at hc
    rcases List.mem_filter.1 hc with ⟨_, hp⟩
    simpa using hp
  · intro m hm
    rw [deleteConversation] at hm
    rcases List.mem_filter.1 hm with ⟨_, hp⟩
    simpa using hp

/-- A conversation row (id 7). -/
def convRow7 : ConversationRow :=
  { id := 7, user_id := 1, started_at := 0, ended_at := none,
    channel := some "telegram", status := "active", tenant_id := 10 }

/-- A message row of conversation 7. -/
def msgRowOf7 : MessageRow :=
  { id := 100, conversation_id := 7, sender := "user", content := some "hi",
    message_type := "text", timestamp := 1, tenant_id := 10 }

/-- A message row of another conversation (8). -/
def msgRowOf8 : MessageRow :=
  { id := 101, conversation_id := 8, sender := "bot", content := some "hello",
    message_type := "text", timestamp := 2, tenant_id := 10 }

/-- A database with conversation 7 and messages of conversations 7 and 8. -/
def dbWithConv7 : DB :=
  { users := [], conversations := [convRow7], messages := [msgRowOf7, msgRowOf8],
    leads := [], analytics := [], archived_messages := [],
    archived_conversations := [], archived_leads := [], archived_analytics := [] }

/-- Witness for C4: the surviving message of the concrete database does
not reference the deleted conversation 7. -/
theorem delete_conversation_cascades_witness :
    msgRowOf8 ∈ (deleteConversation dbWithConv7 7).messages ∧
      msgRowOf8.conversation_id ≠ 7 :=
  ⟨by decide, (delete_conversation_cascades dbWithConv7 7).2 msgRowOf8 (by decide)⟩

/-- A message older than 90 days at time 1000. -/
def msgOld : MessageRow :=
  { id := 1, conversation_id := 7, sender := "user", content := some "old",
    message_type := "text", timestamp := 0, tenant_id := 10 }

/-- A message younger than 90 days at time 1000, in the open
conversation 7. -/
def msgRecent : MessageRow :=
  { id := 2, conversation_id := 7, sender := "bot", content := some "new",
    message_type := "text", timestamp := 950, tenant_id := 10 }

/-- An old conversation that is still open (`ended_at` NULL). -/
def convOpenOld : ConversationRow :=
  { id := 7, user_id := 1, started_at := 0, ended_at := none,
    channel := some "telegram", status := "active", tenant_id := 10 }

/-- A conversation ended more than 90 days before time 1000. -/
def convEndedOld : ConversationRow :=
  { id := 8, user_id := 1, started_at := 0, ended_at := some 5,
    channel := some "telegram", status := "completed", tenant_id := 10 }

/-- A message younger than 90 days at time 1000 that belongs to the
expired conversation 8. -/
def msgRecentOfExpired : MessageRow :=
  { id := 5, conversation_id := 8, sender := "user", content := some "late",
    message_type := "text", timestamp := 999, tenant_id := 10 }

/-- A rejected lead older than 180 days at time 1000. -/
def leadRejectedOld : LeadRow :=
  { id := 3, user_id := some 1, name := some "bob", email := none,
    phone := none, status := "rejected", source := none, notes := none,
    created_at := 0, tenant_id := 10 }

/-- A lead younger than 180 days at time 1000. -/
def leadRecent : LeadRow :=
  { id := 4, user_id := some 1, name := some "eve", email := none,
    phone := none, status := "rejected", source := none, notes := none,
    created_at := 900, tenant_id := 10 }

/-- A database exercising the cleanup script. -/
def dbRetention : DB :=
  { users := [], conversations := [convOpenOld, convEndedOld],
    messages := [msgOld, msgRecent, msgRecentOfExpired],
    leads := [leadRejectedOld, leadRecent],
    analytics := [], archived_messages := [], archived_conversations := [],
    archived_leads := [], archived_analytics := [] }

/-- C5 fails on the code: at time 1000 `msgRecentOfExpired` is younger
than 90 days, so the messages step neither archives nor deletes it; but
the `DELETE FROM conversations` then removes its expired conversation 8
and the `fk_message_conversation ... ON DELETE CASCADE` deletes the
message from the primary `messages` table without it ever being inserted
into `archived_messages` — the script removes a row without archiving it,
contradicting its own archive-then-delete purpose. -/
theorem cleanup_cascade_loses_unarchived_message :
    msgExpired 1000 msgRecentOfExpired = false ∧
      msgRecentOfExpired ∈ dbRetention.messages ∧
      convExpired 1000 convEndedOld = true ∧
      msgRecentOfExpired.conversation_id = convEndedOld.id ∧
      msgRecentOfExpired ∉ (cleanup_with_archive 1000 dbRetention).messages ∧
      msgRecentOfExpired ∉ (cleanup_with_archive 1000 dbRetention).archived_messages := by
  decide

/-- Counterexample to C10 as stated: not every row younger than its
retention window is left unchanged — the message `msgRecentOfExpired`
(timestamp within 90 days of time 1000) is removed from the primary
`messages` table by the cascade of deleting its expired conversation. -/
theorem cleanup_removes_recent_message_of_expired_conversation :
    (1000 : Int) - 90 ≤ msgRecentOfExpired.timestamp ∧
      msgRecentOfExpired ∈ dbRetention.messages ∧
      msgRecentOfExpired ∉ (cleanup_with_archive 1000 dbRetention).messages := by
  decide

/-- C10 amended: the cleanup script never removes an open conversation —
every conversation with NULL `ended_at` stays in the primary table — and
every conversation ended within 90 days, every lead created within 180
days, and every message younger than 90 days whose conversation is not
deleted in the same run (no conversation with its id is expired) are left
in the primary tables. -/
theorem cleanup_preserves_open_and_recent (now : Int) (db : DB) :
    (∀ c ∈ db.conversations, c.ended_at = none →
        c ∈ (cleanup_with_archive now db).conversations) ∧
      (∀ c ∈ db.conversations, ∀ t : Int, c.ended_at = some t →
        now - 90 ≤ t → c ∈ (cleanup_with_archive now db).conversations) ∧
      (∀ m ∈ db.messages, now - 90 ≤ m.timestamp →
        (∀ c ∈ db.conversations, c.id = m.conversation_id →
          convExpired now c = false) →
        m ∈ (cleanup_with_archive now db).messages) ∧
      ∀ l ∈ db.leads, now - 180 ≤ l.created_at →
        l ∈ (cleanup_with_archive now db).leads := by
  refine ⟨?_, ?_, ?_, ?_⟩
  · intro c hc hend
    refine List.mem_filter.2 ⟨hc, ?_⟩
    rw [convExpired, hend]
    rfl
  · intro c hc t hend ht
    refine List.mem_filter.2 ⟨hc, ?_⟩
    rw [convExpired, hend]
    simp [not_lt.2 ht]
  · intro m hm ht hconv
    refine List.mem_filter.2 ⟨List.mem_filter.2 ⟨hm, ?_⟩, ?_⟩
    · rw [msgExpired]
      simp [not_lt.2 ht]
    · simp only [Bool.not_eq_true', List.any_eq_false, List.mem_filter,
        beq_iff_eq, not_and]
      intro c hcmem
      rcases hcmem with ⟨hcdb, hcexp⟩
      intro hid
      rw [hconv c hcdb hid] at hcexp
      cases hcexp
  · intro l hl ht
    refine List.mem_filter.2 ⟨hl, ?_⟩
    rw [leadExpired]
    simp [not_lt.2 ht]

/-- Witness for the amended C10: at time 1000 the open old conversation,
the recent message of the open conversation, and the recent lead all
survive the cleanup. -/
theorem cleanup_preserves_open_and_recent_witness :
    (convOpenOld.ended_at = none ∧
        convOpenOld ∈ (cleanup_with_archive 1000 dbRetention).conversations) ∧
      (msgRecent ∈ (cleanup_with_archive 1000 dbRetention).messages) ∧
      leadRecent ∈ (cleanup_with_archive 1000 dbRetention).leads :=
  ⟨⟨by decide,
    (cleanup_preserves_open_and_recent 1000 dbRetention).1 convOpenOld
      (by decide) (by decide)⟩,
   (cleanup_preserves_open_and_recent 1000 dbRetention).2.2.1 msgRecent
      (by decide) (by decide) (by decide),
   (cleanup_preserves_open_and_recent 1000 dbRetention).2.2.2 leadRecent
      (by decide) (by decide)⟩

/-- C6: a POST whose body does not decode as a `TelegramUpdate` is
rejected at the boundary with status 400, an empty body, and no update is
passed on for further processing. -/
theorem malformed_payload_rejected_400 (err : String) :
    TelegramHandler "POST" (Except.error err) = ({ status := 400, body := "" }, none) := by
  rfl

/-- C7: every well-formed inbound POST gets a non-empty response body —
the handler always answers with the acknowledgement text, never with
silence. -/
theorem wellformed_post_reply_nonempty (u : TelegramUpdate) :
    0 < (TelegramHandler "POST" (Except.ok u)).1.body.length := by
  show 0 < ("Принято сообщение: " ++ u.message.text).length
  rw [String.length_append]
  have h19 : ("Принято сообщение: " : String).length = 19 := by rfl
  omega

/-- An environment with all three mandatory variables set. -/
def envFull : Env := fun key =>
  if key = "POSTGRES_DSN" then some "postgres://db"
  else if key = "REDIS_ADDR" then some "localhost:6379"
  else if key = "OPENAI_KEY" then some "sk-test"
  else none

/-- The environment after a later change to `POSTGRES_DSN`. -/
def envChanged : Env := fun key =>
  if key = "POSTGRES_DSN" then some "postgres://other" else envFull key

/-- The configuration `envFull` produces. -/
def cfgFull : Config :=
  { env := "development", port := "8080", postgresDSN := "postgres://db",
    redisAddr := "localhost:6379", openAIKey := "sk-test" }

/-- Counterexample to C8: configuration is NOT free of process-wide
mutable state.  `LoadConfig` guards a package-level variable with
`sync.Once`: calling it in the empty package state mutates that state
(`none` becomes `some cfgFull`), so a global mutable configuration
singleton does exist. -/
theorem config_has_global_mutable_state :
    (LoadConfig envFull none).2 ≠ none ∧
      (LoadConfig envFull none).2 = some cfgFull := by
  constructor
  · decide
  · rfl

/-- C8 amended: configuration is a process-wide singleton held in mutable
package-level state — the first call to `LoadConfig` builds the config
from the environment and stores it in the package variable, and any call
in an initialized state returns the stored value and leaves it unchanged;
the spec sentence describes the intended replacement, not the code. -/
theorem config_singleton_semantics (e : Env) (c : Config) :
    LoadConfig e none = (buildConfig e, buildConfig e) ∧
      LoadConfig e (some c) = (some c, some c) := by
  constructor
  · cases hb : buildConfig e <;> simp [LoadConfig, hb]
  · rfl

/-- C9: `LoadConfig` is idempotent — once the first call has produced a
configuration, every later call returns that same configuration and
ignores the environment it is called with, so environment changes after
the first call have no effect. -/
theorem LoadConfig_idempotent (e1 e2 : Env) (c : Config)
    (h : (LoadConfig e1 none).1 = some c) :
    LoadConfig e2 (LoadConfig e1 none).2 = (some c, some c) := by
  cases hb : buildConfig e1 with
  | none => simp [LoadConfig, hb] at h
  | some c0 =>
      have h1 : (LoadConfig e1 none).1 = some c0 := by simp [LoadConfig, hb]
      have h2 : (LoadConfig e1 none).2 = some c0 := by simp [LoadConfig, hb]
      rw [h1] at h
      injection h with hc
      subst hc
      rw [h2]
      rfl

/-- Witness for C9: the first call on `envFull` yields `cfgFull`, and a
second call after `POSTGRES_DSN` changed still returns `cfgFull`. -/
theorem LoadConfig_idempotent_witness :
    (LoadConfig envFull none).1 = some cfgFull ∧
      LoadConfig envChanged (LoadConfig envFull none).2 = (some cfgFull, some cfgFull) :=
  ⟨by decide, LoadConfig_idempotent envFull envChanged cfgFull (by decide)⟩
